import Mathlib

/-!
Verification of two files of the nautobot repository:
`tasks.py` (an Invoke task runner) and `nautobot/tenancy/navigation.py`
(a declarative navigation-menu registration).

The Python code is shallowly embedded: the readiness-polling loop of the
`integration_tests` task becomes a recursive Lean function over an abstract
probe (one result per HTTP GET attempt), the command string built by the
`createsuperuser` task becomes a Lean function of its `user` argument, and
the static menu tree becomes a Lean structure literal transcribed from the
source.
-/

namespace Nautobot

/-- Result of one `session.get("http://localhost:8080", timeout=300)` call:
either `requests.exceptions.ConnectionError` is raised, or a response with
the given `status_code` is returned. -/
inductive ProbeResult where
  | connError : ProbeResult
  | status : Nat → ProbeResult
deriving DecidableEq

/-- Observable outcome of the `integration_tests` task body after
`start(context)`: either the task returns normally (success), or it raises
`Exit(message, code)`. -/
inductive Outcome where
  | success : Outcome
  | exit : String → Nat → Outcome
deriving DecidableEq

/-- Trace of one run of the polling loop: its outcome, the number of
HTTP GET attempts performed, and the list of `sleep` durations (seconds)
executed before retries, in order. -/
structure LoopTrace where
  outcome : Outcome
  attempts : Nat
  sleeps : List Nat
deriving DecidableEq

/-- The `while retries < max_retries` loop of `integration_tests`
(src/tasks.py lines 271-285), together with the `if retries >= max_retries`
timeout check that follows it.  `probe k` is the result of the GET attempt
performed in the iteration whose `retries` counter equals `k`.

Each loop iteration performs one GET:
* on `ConnectionError` it sleeps 5 seconds, increments `retries` and
  continues;
* on a 200 response it breaks out of the loop, and since the loop body was
  entered, `retries < max_retries` still holds, so the timeout check after
  the loop does not fire and the task returns normally;
* on any other response it raises
  `Exit("Nautobot returned and invalid status " + status, status_code)`.

When the loop condition fails, `retries >= max_retries` holds and the task
raises `Exit("Timed Out waiting for Nautobot", 1)`. -/
def integrationLoop (probe : Nat → ProbeResult) (retries max_retries : Nat) :
    LoopTrace :=
  if _h : retries < max_retries then
    match probe retries with
    | .connError =>
      let rest := integrationLoop probe (retries + 1) max_retries
      ⟨rest.outcome, rest.attempts + 1, 5 :: rest.sleeps⟩
    | .status s =>
      if s = 200 then ⟨.success, 1, []⟩
      else ⟨.exit ("Nautobot returned and invalid status " ++ toString s) s, 1, []⟩
  else ⟨.exit "Timed Out waiting for Nautobot" 1, 0, []⟩
termination_by max_retries - retries
decreasing_by simp_wf; omega

/-- The `integration_tests` task (src/tasks.py lines 263-285), abstracting
the HTTP endpoint as `probe`: it initialises `retries = 1`,
`max_retries = 60` and runs the polling loop; the first GET attempt is
`probe 1`. -/
def integration_tests (probe : Nat → ProbeResult) : LoopTrace :=
  integrationLoop probe 1 60

set_option linter.unusedVariables false in
/-- The command string the `createsuperuser` task passes to `docker_compose`
(src/tasks.py line 162).  In the Python source this is a plain string
literal, not an f-string, so the braces around `user` are literal text and
the `user` argument of the task is never interpolated into the command. -/
def createsuperuserCommand (user : String) : String :=
  "run nautobot nautobot-server createsuperuser --username {user}"

/-- A navigation button (`NavMenuButton` subclass instance).  `buttonClass`
records which subclass was used: `"add"` for `NavMenuAddButton`, `"import"`
for `NavMenuImportButton`. -/
structure NavMenuButton where
  buttonClass : String
  link : String
  permissions : List String
deriving DecidableEq, Inhabited

/-- Constructor corresponding to `NavMenuAddButton(link=..., permissions=...)`. -/
def NavMenuAddButton (link : String) (permissions : List String) : NavMenuButton :=
  ⟨"add", link, permissions⟩

/-- Constructor corresponding to `NavMenuImportButton(link=..., permissions=...)`. -/
def NavMenuImportButton (link : String) (permissions : List String) : NavMenuButton :=
  ⟨"import", link, permissions⟩

/-- A navigation item (`NavMenuItem`): a link, display name, weight,
required permissions and buttons. -/
structure NavMenuItem where
  link : String
  name : String
  weight : Nat
  permissions : List String
  buttons : List NavMenuButton
deriving DecidableEq, Inhabited

/-- A navigation group (`NavMenuGroup`): a name, weight and items. -/
structure NavMenuGroup where
  name : String
  weight : Nat
  items : List NavMenuItem
deriving DecidableEq, Inhabited

/-- A navigation tab (`NavMenuTab`): a name, weight and groups. -/
structure NavMenuTab where
  name : String
  weight : Nat
  groups : List NavMenuGroup
deriving DecidableEq, Inhabited

/-- The `menu_items` tuple of `src/nautobot/tenancy/navigation.py`,
transcribed literally. -/
def menu_items : List NavMenuTab :=
  [{ name := "Organization"
     weight := 100
     groups :=
      [{ name := "Tenancy"
         weight := 300
         items :=
          [{ link := "tenancy:tenant_list"
             name := "Tenants"
             weight := 100
             permissions := ["tenancy.view_tenant"]
             buttons :=
              [NavMenuAddButton "tenancy:tenant_add" ["tenancy.add_tag"],
               NavMenuImportButton "tenancy:tenant_import" ["tenancy.add_tenant"]] },
           { link := "tenancy:tenantgroup_list"
             name := "Tenant Groups"
             weight := 200
             permissions := ["tenancy.view_tenantgroup"]
             buttons :=
              [NavMenuAddButton "tenancy:tenantgroup_add" ["tenancy.add_tenantgroup"],
               NavMenuImportButton "tenancy:tenantgroup_import" ["tenancy.add_tenantgroup"]] }] }] }]

/-- Probe for the scenario of claim C1: a connection error on each of the
first 59 attempts, HTTP 200 from the 60th attempt on. -/
def probeC1 : Nat → ProbeResult :=
  fun n => if n ≤ 59 then .connError else .status 200

/-- Probe for the amended claim C1: a connection error on each of the first
58 attempts, HTTP 200 from the 59th attempt on. -/
def probeC1amended : Nat → ProbeResult :=
  fun n => if n ≤ 58 then .connError else .status 200

/-- Probe used to witness claim C3: connection errors on attempts 1 and 2,
HTTP 200 from attempt 3 on. -/
def probeC3 : Nat → ProbeResult :=
  fun n => if n ≤ 2 then .connError else .status 200

/-- Probe used to witness claim C4: a connection error on attempt 1,
HTTP 500 from attempt 2 on. -/
def probeC4 : Nat → ProbeResult :=
  fun n => if n ≤ 1 then .connError else .status 500

end Nautobot

namespace Nautobot

/-- One-step unfolding of `integrationLoop`, with the `let` inlined and the
result stated by fields. -/
theorem integrationLoop_eq (probe : Nat → ProbeResult) (retries max_retries : Nat) :
    integrationLoop probe retries max_retries =
      if retries < max_retries then
        match probe retries with
        | .connError =>
          ⟨(integrationLoop probe (retries + 1) max_retries).outcome,
           (integrationLoop probe (retries + 1) max_retries).attempts + 1,
           5 :: (integrationLoop probe (retries + 1) max_retries).sleeps⟩
        | .status s =>
          if s = 200 then ⟨.success, 1, []⟩
          else ⟨.exit ("Nautobot returned and invalid status " ++ toString s) s, 1, []⟩
      else ⟨.exit "Timed Out waiting for Nautobot" 1, 0, []⟩ := by
  rw [integrationLoop]
  by_cases h : retries < max_retries
  · simp only [dif_pos h, if_pos h]
  · simp only [dif_neg h, if_neg h]

/-- The polling loop performs at most `max_retries - retries` GET attempts. -/
theorem integrationLoop_attempts_le (probe : Nat → ProbeResult) :
    ∀ (fuel retries max_retries : Nat), max_retries - retries ≤ fuel →
      (integrationLoop probe retries max_retries).attempts ≤ max_retries - retries := by
  intro fuel
  induction fuel with
  | zero =>
    intro r m hf
    rw [integrationLoop_eq]
    have hrm : ¬ r < m := by omega
    simp [hrm]
  | succ n ih =>
    intro r m hf
    rw [integrationLoop_eq]
    by_cases hrm : r < m
    · simp only [if_pos hrm]
      cases hpr : probe r with
      | connError =>
        have h1 := ih (r + 1) m (by omega)
        simpa using by omega
      | status s =>
        by_cases h200 : s = 200 <;> simp [h200] <;> omega
    · simp [hrm]

/-- If attempt `k` returns HTTP 200 and every attempt from `r` up to `k`
excluded raises a connection error, the loop started at `retries = r` exits
with success after exactly `k - r + 1` attempts and `k - r` sleeps of 5
seconds. -/
theorem integrationLoop_first200 (probe : Nat → ProbeResult) :
    ∀ (fuel r m k : Nat), m - r ≤ fuel → r ≤ k → k < m →
      probe k = .status 200 →
      (∀ j, r ≤ j → j < k → probe j = .connError) →
      integrationLoop probe r m =
        ⟨.success, k - r + 1, List.replicate (k - r) 5⟩ := by
  intro fuel
  induction fuel with
  | zero =>
    intro r m k hf hrk hkm _ _
    omega
  | succ n ih =>
    intro r m k hf hrk hkm h200 hprev
    rw [integrationLoop_eq]
    have hrm : r < m := by omega
    simp only [if_pos hrm]
    by_cases hrk2 : r = k
    · subst hrk2
      rw [h200]
      simp
    · have hrklt : r < k := by omega
      rw [hprev r le_rfl hrklt]
      rw [ih (r + 1) m k (by omega) (by omega) hkm h200
        (fun j hj1 hj2 => hprev j (by omega) hj2)]
      have hk : k - r = (k - (r + 1)) + 1 := by omega
      rw [hk, List.replicate_succ]

/-- If attempt `k` returns a status `s ≠ 200` and every attempt from `r` up
to `k` excluded raises a connection error, the loop started at
`retries = r` raises the invalid-status `Exit` with code `s` after exactly
`k - r + 1` attempts. -/
theorem integrationLoop_badStatus (probe : Nat → ProbeResult) :
    ∀ (fuel r m k s : Nat), m - r ≤ fuel → r ≤ k → k < m →
      probe k = .status s → s ≠ 200 →
      (∀ j, r ≤ j → j < k → probe j = .connError) →
      integrationLoop probe r m =
        ⟨.exit ("Nautobot returned and invalid status " ++ toString s) s,
         k - r + 1, List.replicate (k - r) 5⟩ := by
  intro fuel
  induction fuel with
  | zero =>
    intro r m k s hf hrk hkm _ _ _
    omega
  | succ n ih =>
    intro r m k s hf hrk hkm hks hne hprev
    rw [integrationLoop_eq]
    have hrm : r < m := by omega
    simp only [if_pos hrm]
    by_cases hrk2 : r = k
    · subst hrk2
      rw [hks]
      simp [hne]
    · have hrklt : r < k := by omega
      rw [hprev r le_rfl hrklt]
      rw [ih (r + 1) m k s (by omega) (by omega) hkm hks hne
        (fun j hj1 hj2 => hprev j (by omega) hj2)]
      have hk : k - r = (k - (r + 1)) + 1 := by omega
      rw [hk, List.replicate_succ]

/-- If every attempt from `r` up to `m` excluded raises a connection error,
the loop performs `m - r` attempts and raises the timeout `Exit` with
message `"Timed Out waiting for Nautobot"` and code 1. -/
theorem integrationLoop_allConn (probe : Nat → ProbeResult) :
    ∀ (fuel r m : Nat), m - r ≤ fuel →
      (∀ j, r ≤ j → j < m → probe j = .connError) →
      integrationLoop probe r m =
        ⟨.exit "Timed Out waiting for Nautobot" 1, m - r,
         List.replicate (m - r) 5⟩ := by
  intro fuel
  induction fuel with
  | zero =>
    intro r m hf hconn
    rw [integrationLoop_eq]
    have hrm : ¬ r < m := by omega
    have hz : m - r = 0 := by omega
    simp [hrm, hz]
  | succ n ih =>
    intro r m hf hconn
    rw [integrationLoop_eq]
    by_cases hrm : r < m
    · simp only [if_pos hrm]
      rw [hconn r le_rfl hrm]
      rw [ih (r + 1) m (by omega) (fun j h1 h2 => hconn j (by omega) h2)]
      have hm : m - r = (m - (r + 1)) + 1 := by omega
      rw [hm, List.replicate_succ]
    · have hz : m - r = 0 := by omega
      simp [hrm, hz]

/-- Every sleep performed by the loop lasts 5 seconds: the list of sleep
durations is a constant list of 5s. -/
theorem integrationLoop_sleeps_constant (probe : Nat → ProbeResult) :
    ∀ (fuel r m : Nat), m - r ≤ fuel →
      (integrationLoop probe r m).sleeps =
        List.replicate (integrationLoop probe r m).sleeps.length 5 := by
  intro fuel
  induction fuel with
  | zero =>
    intro r m hf
    rw [integrationLoop_eq]
    have hrm : ¬ r < m := by omega
    simp [hrm]
  | succ n ih =>
    intro r m hf
    rw [integrationLoop_eq]
    by_cases hrm : r < m
    · simp only [if_pos hrm]
      cases hpr : probe r with
      | connError =>
        have hrec := ih (r + 1) m (by omega)
        simp [List.replicate_succ]
        exact hrec
      | status s =>
        by_cases h200 : s = 200 <;> simp [h200]
    · simp [hrm]

set_option maxRecDepth 4000 in
/-- C1, counterexample: with `retries` starting at 1 and the loop guarded by
`retries < max_retries`, only 59 GET attempts are ever performed, so when
the endpoint raises a connection error on each of the first 59 attempts and
would return HTTP 200 on the 60th, the task does not report success: it
raises the timeout `Exit` after 59 attempts, never reaching a 60th. -/
theorem C1_counterexample :
    (integration_tests probeC1).outcome ≠ Outcome.success ∧
    (integration_tests probeC1).outcome
      = Outcome.exit "Timed Out waiting for Nautobot" 1 ∧
    (integration_tests probeC1).attempts = 59 := by
  refine ⟨?_, ?_, ?_⟩ <;> simp [integration_tests, integrationLoop, probeC1]

set_option maxRecDepth 4000 in
/-- C1, amended: with max_retries=60 and a 5-second delay, if the probed
endpoint raises a connection error on each of the first 58 attempts and
returns HTTP 200 on the 59th attempt, the task reports success (terminates
normally without raising), after exactly 59 attempts. -/
theorem C1_amended_success :
    (integration_tests probeC1amended).outcome = Outcome.success ∧
    (integration_tests probeC1amended).attempts = 59 := by
  constructor <;> simp [integration_tests, integrationLoop, probeC1amended]

/-- C2: for every sequence of probe responses the polling loop terminates
(`integration_tests` is a total function) and performs at most 60 HTTP GET
attempts. -/
theorem C2_terminates_attempts_le (probe : Nat → ProbeResult) :
    (integration_tests probe).attempts ≤ 60 := by
  have h := integrationLoop_attempts_le probe 59 1 60 (by omega)
  exact le_trans h (by omega)

/-- C3: if attempt `k` (performed inside the loop, so `1 ≤ k < 60`) returns
HTTP 200 and every earlier attempt raised a connection error, the task
succeeds, exiting the loop without raising, and performs exactly `k`
attempts: none after the 200. -/
theorem C3_success_at_first_200 (probe : Nat → ProbeResult) (k : Nat)
    (hk1 : 1 ≤ k) (hk60 : k < 60)
    (h200 : probe k = .status 200)
    (hprev : ∀ j, 1 ≤ j → j < k → probe j = .connError) :
    (integration_tests probe).outcome = Outcome.success ∧
    (integration_tests probe).attempts = k := by
  have h := integrationLoop_first200 probe 60 1 60 k (by omega) hk1 hk60 h200 hprev
  rw [integration_tests, h]
  exact ⟨rfl, by simp; omega⟩

/-- Witness for C3 at a concrete probe: connection errors on attempts 1 and
2, HTTP 200 on attempt 3. -/
theorem C3_witness :
    (integration_tests probeC3).outcome = Outcome.success ∧
    (integration_tests probeC3).attempts = 3 :=
  C3_success_at_first_200 probeC3 3 (by omega) (by omega) (by decide)
    (by
      intro j h1 h2
      have hj : j = 1 ∨ j = 2 := by omega
      rcases hj with rfl | rfl <;> decide)

/-- C4: if attempt `k` (performed inside the loop, so `1 ≤ k < 60`) returns
a response with status `s ≠ 200`, every earlier attempt having raised a
connection error, the task immediately raises
`Exit("Nautobot returned and invalid status " + s, s)` — not the timeout —
and performs exactly `k` attempts: no further retries. -/
theorem C4_invalid_status_aborts (probe : Nat → ProbeResult) (k s : Nat)
    (hk1 : 1 ≤ k) (hk60 : k < 60)
    (hks : probe k = .status s) (hne : s ≠ 200)
    (hprev : ∀ j, 1 ≤ j → j < k → probe j = .connError) :
    (integration_tests probe).outcome
      = Outcome.exit ("Nautobot returned and invalid status " ++ toString s) s ∧
    (integration_tests probe).attempts = k := by
  have h := integrationLoop_badStatus probe 60 1 60 k s (by omega) hk1 hk60 hks hne hprev
  rw [integration_tests, h]
  exact ⟨rfl, by simp; omega⟩

/-- Witness for C4 at a concrete probe: a connection error on attempt 1,
HTTP 500 on attempt 2. -/
theorem C4_witness :
    (integration_tests probeC4).outcome
      = Outcome.exit ("Nautobot returned and invalid status " ++ toString 500) 500 ∧
    (integration_tests probeC4).attempts = 2 :=
  C4_invalid_status_aborts probeC4 2 500 (by omega) (by omega) (by decide)
    (by decide)
    (by
      intro j h1 h2
      have hj : j = 1 := by omega
      subst hj
      decide)

/-- C5: if every attempt the task can make (attempts 1 through 59, all
those within the 60-attempt ceiling) raises a connection error, the task
raises `Exit` with message exactly `"Timed Out waiting for Nautobot"` and
exit code 1. -/
theorem C5_timeout_message (probe : Nat → ProbeResult)
    (hconn : ∀ j, 1 ≤ j → j < 60 → probe j = .connError) :
    (integration_tests probe).outcome
      = Outcome.exit "Timed Out waiting for Nautobot" 1 := by
  have h := integrationLoop_allConn probe 60 1 60 (by omega) hconn
  rw [integration_tests, h]

/-- Witness for C5 at a concrete probe that always raises a connection
error. -/
theorem C5_witness :
    (integration_tests (fun _ => ProbeResult.connError)).outcome
      = Outcome.exit "Timed Out waiting for Nautobot" 1 :=
  C5_timeout_message (fun _ => ProbeResult.connError) (fun _ _ _ => rfl)

/-- C6: every delay the task sleeps between retries is the same constant 5
seconds — the list of sleep durations is constant, with no growth and no
jitter. -/
theorem C6_constant_delay (probe : Nat → ProbeResult) :
    (integration_tests probe).sleeps =
      List.replicate (integration_tests probe).sleeps.length 5 :=
  integrationLoop_sleeps_constant probe 60 1 60 (by omega)

/-- C7: in the `menu_items` navigation tree, every item and every button
has a non-empty permissions list. -/
theorem C7_permissions_nonempty :
    ∀ t ∈ menu_items, ∀ g ∈ t.groups, ∀ i ∈ g.items,
      i.permissions ≠ [] ∧ ∀ b ∈ i.buttons, b.permissions ≠ [] := by
  decide

/-- Witness for C7 at the first button of the first item of the tree. -/
theorem C7_witness :
    ((((menu_items.get! 0).groups.get! 0).items.get! 0).buttons.get! 0).permissions
      ≠ [] :=
  (C7_permissions_nonempty (menu_items.get! 0) (by decide)
      ((menu_items.get! 0).groups.get! 0) (by decide)
      (((menu_items.get! 0).groups.get! 0).items.get! 0) (by decide)).2
    ((((menu_items.get! 0).groups.get! 0).items.get! 0).buttons.get! 0) (by decide)

/-- C8: in the `menu_items` navigation tree, sibling weights are pairwise
distinct at every level: the tabs of the tree, the groups of each tab, and
the items of each group. -/
theorem C8_weights_distinct :
    (menu_items.map NavMenuTab.weight).Nodup ∧
    ∀ t ∈ menu_items, (t.groups.map NavMenuGroup.weight).Nodup ∧
      ∀ g ∈ t.groups, (g.items.map NavMenuItem.weight).Nodup := by
  decide

/-- Witness for C8 at the first group of the first tab. -/
theorem C8_witness :
    (((menu_items.get! 0).groups.get! 0).items.map NavMenuItem.weight).Nodup :=
  (C8_weights_distinct.2 (menu_items.get! 0) (by decide)).2
    ((menu_items.get! 0).groups.get! 0) (by decide)

/-- C9: the `user` option of the `createsuperuser` task has no effect: the
command string passed to `docker_compose` is the same for every value of
`user`, and it contains the literal text `\x7buser\x7d` rather than the
supplied username (the Python source omits the `f` prefix on the string). -/
theorem C9_user_argument_ignored (u v : String) :
    createsuperuserCommand u = createsuperuserCommand v ∧
    ∃ before after, createsuperuserCommand u = before ++ "{user}" ++ after :=
  ⟨rfl, "run nautobot nautobot-server createsuperuser --username ", "",
    by simp [createsuperuserCommand]⟩

/-- C10: the "Tenants" item of the navigation tree has exactly two buttons,
an add button and an import button; the add button requires exactly the
permission `"tenancy.add_tag"` (not a tenant-model permission) while
the second, import, button requires `"tenancy.add_tenant"`. -/
theorem C10_tenants_button_permissions :
    ∃ t ∈ menu_items, ∃ g ∈ t.groups, ∃ i ∈ g.items,
      i.name = "Tenants" ∧
      i.buttons.map NavMenuButton.buttonClass = ["add", "import"] ∧
      i.buttons.map NavMenuButton.permissions
        = [["tenancy.add_tag"], ["tenancy.add_tenant"]] := by
  decide

end Nautobot
